import Mathlib

/-!
# custom.js — alert auto-dismiss, delete confirmation, date formatting

A shallow embedding of `src/main/resources/static/js/custom.js`.

The script has three parts:

* a `DOMContentLoaded` listener that arms a 5000 ms one-shot timer whose
  callback closes every `.alert` element through `bootstrap.Alert`;
* `confirmDelete(message)`, a wrapper around the browser's `confirm`;
* `formatDate(dateString)`, a wrapper around `Date` and `toLocaleString`.

Browser facilities the script calls (`confirm`, `bootstrap.Alert`, the timer
queue, `Date`, `toLocaleString`) are not part of the script; they appear here
as parameters or as small executable models, each marked as such.
-/

namespace CustomJs

/-! ## JavaScript values reaching `confirmDelete` -/

/-- The values a caller can hand to `confirmDelete(message)`: nothing at all
(`undefined`), `null`, or a string. -/
inductive JsValue where
  | undefined
  | null
  | string (s : String)
  deriving DecidableEq, Repr

/-- JavaScript truthiness: `undefined`, `null` and the empty string are falsy,
every other string is truthy. -/
def JsValue.truthy : JsValue → Bool
  | .undefined => false
  | .null => false
  | .string s => !(s == "")

/-- The JavaScript operator `a || b`: `a` when `a` is truthy, else `b`. -/
def JsValue.or (a b : JsValue) : JsValue :=
  if a.truthy then a else b

/-- JavaScript `ToString`, applied by `confirm` to its argument. -/
def JsValue.toText : JsValue → String
  | .undefined => "undefined"
  | .null => "null"
  | .string s => s

/-- What one call of the browser's `confirm` amounts to: the text put in the
modal dialog, and the boolean handed back to the script. -/
structure Dialog where
  shown : String
  returned : Bool
  deriving DecidableEq, Repr

/-- The browser's `confirm(text)`. The user is a parameter: `user t` is the
user's answer (`true` = accepts) when the dialog shows `t`. The dialog shows
the argument converted to a string and returns the user's answer. -/
def confirm (user : String → Bool) (text : JsValue) : Dialog :=
  { shown := text.toText, returned := user text.toText }

/-- The string literal on line 14 of `custom.js`. -/
def defaultMessage : String := "Êtes-vous sûr de vouloir supprimer cet élément ?"

/-- The function `confirmDelete(message)`, lines 13–15:
`return confirm(message || '...')`. -/
def confirmDelete (user : String → Bool) (message : JsValue) : Dialog :=
  confirm user (message.or (.string defaultMessage))

/-! ## The document, the Bootstrap toolkit and the dismiss callback -/

/-- A DOM element, as far as the script can tell elements apart: its identity
and its class list. -/
structure Element where
  id : Nat
  classList : List String
  deriving DecidableEq, Repr

/-- The selectors the script uses: a single class selector (`'.alert'`). -/
inductive Selector where
  | cls (name : String)
  deriving DecidableEq, Repr

/-- The test `element.matches(selector)`. -/
def Element.matchesSel (e : Element) : Selector → Bool
  | .cls name => e.classList.contains name

/-- The call `document.querySelectorAll(selector)`, the document being given as
its elements in document order: the static list of the matching elements, in
document order. -/
def querySelectorAll (document : List Element) (sel : Selector) : List Element :=
  document.filter (fun e => e.matchesSel sel)

/-- What the dismiss callback can observe and change. -/
structure World where
  /-- the elements displayed in the document, in document order -/
  document : List Element
  /-- the elements a `bootstrap.Alert` was constructed for, oldest first -/
  constructed : List Element
  /-- the elements whose `close()` has completed, oldest first -/
  closed : List Element
  deriving DecidableEq, Repr

/-- An exception raised by the toolkit, with the element it was raised on. -/
inductive Fault where
  | alertConstructor (e : Element)
  | alertClose (e : Element)
  deriving DecidableEq, Repr

/-- The toolkit as the script meets it: for each element, whether
`new bootstrap.Alert(el)` throws and whether `close()` throws (a page without
the toolkit loaded throws on every construction). -/
structure Toolkit where
  constructorThrows : Element → Bool
  closeThrows : Element → Bool

/-- The state reached by a piece of script, and the exception it ended with,
if any. -/
structure Outcome where
  world : World
  fault : Option Fault
  deriving DecidableEq, Repr

/-- The expression `new bootstrap.Alert(alert)`: throws, or records the
construction. -/
def newAlert (tk : Toolkit) (alert : Element) (w : World) : Outcome :=
  if tk.constructorThrows alert then
    { world := w, fault := some (.alertConstructor alert) }
  else
    { world := { w with constructed := w.constructed ++ [alert] }, fault := none }

/-- Modelled from the spec: `bootstrap.Alert.prototype.close`, which belongs to
the toolkit and not to the repository. Either it throws and changes nothing, or
it dismisses the element: "an alert element, once dismissed, is no longer
displayed", so the element leaves the displayed document and the call is
logged. -/
def alertClose (tk : Toolkit) (alert : Element) (w : World) : Outcome :=
  if tk.closeThrows alert then
    { world := w, fault := some (.alertClose alert) }
  else
    { world := { w with
        document := w.document.filter (fun e => e.id != alert.id)
        closed := w.closed ++ [alert] },
      fault := none }

/-- The body of the `forEach` callback, lines 6–7:
`const bsAlert = new bootstrap.Alert(alert); bsAlert.close();`.
An exception in the constructor skips the `close()`. -/
def dismissAlert (tk : Toolkit) (alert : Element) (w : World) : Outcome :=
  let o := newAlert tk alert w
  match o.fault with
  | some f => { world := o.world, fault := some f }
  | none => alertClose tk alert o.world

/-- The method `NodeList.prototype.forEach`: calls `f` on each element in order;
an exception thrown by `f` ends the iteration and propagates. -/
def forEach (f : Element → World → Outcome) : List Element → World → Outcome
  | [], w => { world := w, fault := none }
  | e :: es, w =>
    let o := f e w
    match o.fault with
    | some flt => { world := o.world, fault := some flt }
    | none => forEach f es o.world

/-- The timer callback, lines 3–9:
`const alerts = document.querySelectorAll('.alert'); alerts.forEach(...)`. -/
def timerCallback (tk : Toolkit) (w : World) : Outcome :=
  let alerts := querySelectorAll w.document (.cls "alert")
  forEach (dismissAlert tk) alerts w

/-! ## The page: listener registration and the timer queue -/

/-- A pending one-shot timer armed by `setTimeout`. The script has a single
timer callback, so a timer is its delay and the time it becomes due. -/
structure Timer where
  delay : Nat
  due : Nat
  deriving DecidableEq, Repr

/-- A page running the script. Time is in milliseconds. -/
structure Page where
  world : World
  clock : Nat
  /-- how many times the script registered its `DOMContentLoaded` listener -/
  listeners : Nat
  /-- pending timers, in the order they were armed -/
  timers : List Timer
  /-- the delay of every `setTimeout` call made so far, oldest first -/
  armed : List Nat
  /-- how many times the timer callback has run -/
  callbackRuns : Nat
  /-- exceptions that escaped a timer callback, oldest first -/
  uncaught : List Fault
  deriving DecidableEq, Repr

/-- A freshly parsed page showing `document` at time `now`, before any script
has run. -/
def Page.fresh (document : List Element) (now : Nat) : Page :=
  { world := { document := document, constructed := [], closed := [] },
    clock := now, listeners := 0, timers := [], armed := [],
    callbackRuns := 0, uncaught := [] }

/-- The host's `setTimeout(callback, delay)`: arms a one-shot timer due `delay`
milliseconds from now. -/
def setTimeout (delay : Nat) (p : Page) : Page :=
  { p with
    timers := p.timers ++ [{ delay := delay, due := p.clock + delay }]
    armed := p.armed ++ [delay] }

/-- The `DOMContentLoaded` listener, lines 2–10: `setTimeout(function() ..., 5000)`
and nothing else. -/
def onDOMContentLoaded (p : Page) : Page :=
  setTimeout 5000 p

/-- Evaluating the script's top level: line 2 registers the listener; the two
function declarations have no effect of their own. -/
def loadScript (p : Page) : Page :=
  { p with listeners := p.listeners + 1 }

/-- The host running one pending timer after the clock has advanced: a timer
that is due runs the callback once and is dropped, an exception escaping the
callback is reported and does not stop the host; a timer that is not due stays
pending. -/
def runTimer (tk : Toolkit) (p : Page) (t : Timer) : Page :=
  if t.due ≤ p.clock then
    let o := timerCallback tk p.world
    { p with
      world := o.world
      callbackRuns := p.callbackRuns + 1
      uncaught := p.uncaught ++ o.fault.toList }
  else
    { p with timers := p.timers ++ [t] }

/-- What can happen to a page once the script is loaded. -/
inductive HostEvent where
  /-- the browser dispatches `DOMContentLoaded` -/
  | domContentLoaded
  /-- `ms` milliseconds pass, then the host runs the timers that are due -/
  | elapse (ms : Nat)
  /-- something other than the script appends an element to the document -/
  | insert (e : Element)
  /-- something other than the script removes the element with this identity -/
  | remove (id : Nat)
  deriving DecidableEq, Repr

/-- One step of the host. -/
def step (tk : Toolkit) (p : Page) : HostEvent → Page
  | .domContentLoaded => (List.range p.listeners).foldl (fun q _ => onDOMContentLoaded q) p
  | .elapse ms =>
    p.timers.foldl (runTimer tk) { p with clock := p.clock + ms, timers := [] }
  | .insert e => { p with world := { p.world with document := p.world.document ++ [e] } }
  | .remove id =>
    { p with world := { p.world with document := p.world.document.filter (fun e => e.id != id) } }

/-- The host running a sequence of events. -/
def run (tk : Toolkit) (p : Page) (evs : List HostEvent) : Page :=
  evs.foldl (step tk) p

/-- The page at the moment `DOMContentLoaded` has been handled: the script was
loaded once into a fresh page and the event dispatched once. -/
def pageLoaded (tk : Toolkit) (document : List Element) (now : Nat) : Page :=
  step tk (loadScript (Page.fresh document now)) .domContentLoaded

/-- The page after `DOMContentLoaded` followed by the events `evs`. -/
def pageAfter (tk : Toolkit) (document : List Element) (now : Nat) (evs : List HostEvent) :
    Page :=
  run tk (pageLoaded tk document now) evs

/-- Total time passed during a sequence of events. -/
def elapsed : List HostEvent → Nat
  | [] => 0
  | .elapse ms :: evs => ms + elapsed evs
  | _ :: evs => elapsed evs

/-- Whether the sequence dispatches `DOMContentLoaded`. -/
def hasLoadEvent : List HostEvent → Bool
  | [] => false
  | .domContentLoaded :: _ => true
  | _ :: evs => hasLoadEvent evs

/-- The document after the changes made by others during a sequence of events
(`insert` and `remove`), the script's own effects left aside. -/
def documentAfter : List HostEvent → List Element → List Element
  | [], d => d
  | .insert e :: evs, d => documentAfter evs (d ++ [e])
  | .remove id :: evs, d => documentAfter evs (d.filter (fun e => e.id != id))
  | _ :: evs, d => documentAfter evs d

/-- Whether the sequence only lets time pass. -/
def onlyElapse : List HostEvent → Bool
  | [] => true
  | .elapse _ :: evs => onlyElapse evs
  | _ :: _ => false

/-! ### Sample pages, to evaluate the script on -/

/-- A document with three alert banners (identities 1, 3, 4) and a navigation
bar. -/
def sampleDocument : List Element :=
  [ { id := 1, classList := ["alert", "alert-success"] },
    { id := 2, classList := ["navbar"] },
    { id := 3, classList := ["alert", "alert-danger", "fade"] },
    { id := 4, classList := ["alert"] } ]

/-- A toolkit that never throws. -/
def workingToolkit : Toolkit :=
  { constructorThrows := fun _ => false, closeThrows := fun _ => false }

/-- A toolkit whose `close` throws on the element of identity 3. -/
def faultyToolkit : Toolkit :=
  { constructorThrows := fun _ => false, closeThrows := fun e => e.id == 3 }

/-! ## Dates: `new Date(string)` and `toLocaleString`

`Date` and `toLocaleString` belong to the host. `new Date(string)` is a
parameter: which strings parse is up to the host. `toLocaleString` is modelled
after ECMA-402 for the locale `fr-FR`: the options are validated, the requested
fields are rendered in the French order (weekday, day, month, year, then hour,
minute, second and zone), and the literal the locale puts between date and time
is left to the host. -/

/-- The fields of a valid `Date` read in the host's local time zone, which is
how `toLocaleString` reads them when no `timeZone` option is given. `month` is
zero-based, as `getMonth()` is. -/
structure DateFields where
  year : Int
  month : Fin 12
  day : Nat
  hour : Fin 24
  minute : Fin 60
  second : Fin 60
  deriving DecidableEq, Repr

/-- A `Date` object: its time value is `NaN`, or it denotes an instant. -/
inductive JsDate where
  | invalid
  | valid (f : DateFields)
  deriving DecidableEq, Repr

/-- An exception thrown by the host's date formatting. -/
inductive JsError where
  | rangeError (property : String) (value : String)
  deriving DecidableEq, Repr

/-- How a call ends: it returns a value or throws. -/
inductive Completion (α : Type) where
  | normal (value : α)
  | thrown (error : JsError)
  deriving DecidableEq, Repr

/-- The options object passed to `toLocaleString`, as written in a script: each
property is absent or a string. -/
structure Options where
  weekday : Option String := none
  year : Option String := none
  month : Option String := none
  day : Option String := none
  hour : Option String := none
  minute : Option String := none
  second : Option String := none
  timeZoneName : Option String := none
  deriving DecidableEq, Repr

/-- Option values `'numeric'` and `'2-digit'`. -/
inductive NumStyle where
  | numeric
  | twoDigit
  deriving DecidableEq, Repr

/-- Option values accepted for `month`. -/
inductive MonthStyle where
  | numeric
  | twoDigit
  | long
  | short
  | narrow
  deriving DecidableEq, Repr

/-- Option values accepted for `weekday`. -/
inductive NameStyle where
  | long
  | short
  | narrow
  deriving DecidableEq, Repr

/-- Option values accepted for `timeZoneName`. -/
inductive ZoneStyle where
  | long
  | short
  | longOffset
  | shortOffset
  | longGeneric
  | shortGeneric
  deriving DecidableEq, Repr

/-- The options once validated. -/
structure ResolvedOptions where
  weekday : Option NameStyle
  year : Option NumStyle
  month : Option MonthStyle
  day : Option NumStyle
  hour : Option NumStyle
  minute : Option NumStyle
  second : Option NumStyle
  timeZoneName : Option ZoneStyle
  deriving DecidableEq, Repr

/-- Reading a property that takes `'numeric'` or `'2-digit'`; any other string
is a `RangeError`. -/
def getNumStyle (property : String) : Option String → Completion (Option NumStyle)
  | none => .normal none
  | some v =>
    if v = "numeric" then .normal (some .numeric)
    else if v = "2-digit" then .normal (some .twoDigit)
    else .thrown (.rangeError property v)

/-- Reading the property `month`. -/
def getMonthStyle : Option String → Completion (Option MonthStyle)
  | none => .normal none
  | some v =>
    if v = "numeric" then .normal (some .numeric)
    else if v = "2-digit" then .normal (some .twoDigit)
    else if v = "long" then .normal (some .long)
    else if v = "short" then .normal (some .short)
    else if v = "narrow" then .normal (some .narrow)
    else .thrown (.rangeError "month" v)

/-- Reading the property `weekday`. -/
def getNameStyle : Option String → Completion (Option NameStyle)
  | none => .normal none
  | some v =>
    if v = "long" then .normal (some .long)
    else if v = "short" then .normal (some .short)
    else if v = "narrow" then .normal (some .narrow)
    else .thrown (.rangeError "weekday" v)

/-- Reading the property `timeZoneName`. -/
def getZoneStyle : Option String → Completion (Option ZoneStyle)
  | none => .normal none
  | some v =>
    if v = "long" then .normal (some .long)
    else if v = "short" then .normal (some .short)
    else if v = "longOffset" then .normal (some .longOffset)
    else if v = "shortOffset" then .normal (some .shortOffset)
    else if v = "longGeneric" then .normal (some .longGeneric)
    else if v = "shortGeneric" then .normal (some .shortGeneric)
    else .thrown (.rangeError "timeZoneName" v)

/-- Sequencing of calls that may throw. -/
def Completion.andThen (c : Completion α) (k : α → Completion β) : Completion β :=
  match c with
  | .normal a => k a
  | .thrown e => .thrown e

/-- Validation of the options object, property by property; the first invalid
value throws. -/
def resolveOptions (o : Options) : Completion ResolvedOptions :=
  (getNameStyle o.weekday).andThen fun weekday =>
  (getNumStyle "year" o.year).andThen fun year =>
  (getMonthStyle o.month).andThen fun month =>
  (getNumStyle "day" o.day).andThen fun day =>
  (getNumStyle "hour" o.hour).andThen fun hour =>
  (getNumStyle "minute" o.minute).andThen fun minute =>
  (getNumStyle "second" o.second).andThen fun second =>
  (getZoneStyle o.timeZoneName).andThen fun timeZoneName =>
  .normal { weekday := weekday, year := year, month := month, day := day, hour := hour,
            minute := minute, second := second, timeZoneName := timeZoneName }

/-- The kinds of part a formatted date is made of (`formatToParts`). -/
inductive PartType where
  | weekday
  | day
  | month
  | year
  | hour
  | minute
  | second
  | timeZoneName
  | literal
  deriving DecidableEq, Repr

/-- One part of a formatted date. -/
structure Part where
  type : PartType
  value : String
  deriving DecidableEq, Repr

/-- The host facilities `formatDate` relies on. -/
structure Host where
  /-- the constructor `new Date(string)`; which strings parse is up to the host -/
  newDate : String → JsDate
  /-- the literal the French pattern puts between the date and the time -/
  dateTimeGlue : String
  /-- the name of the local time zone -/
  timeZoneName : ZoneStyle → String
  /-- the rendering for locale tags other than `fr-FR` -/
  otherLocale : String → DateFields → ResolvedOptions → Completion String

/-- A number below 100 written with two digits. -/
def pad2 (n : Nat) : String :=
  if n < 10 then "0" ++ toString n else toString n

/-- The year as displayed without an era: years up to 0 count backwards from 1. -/
def yearOfEra (y : Int) : Nat :=
  if 0 < y then y.toNat else (1 - y).toNat

/-- Rendering of a number under `'numeric'` (plain decimal) or `'2-digit'`. -/
def renderNum (n : Nat) : NumStyle → String
  | .numeric => toString n
  | .twoDigit => pad2 (n % 100)

/-- French month names, January first. -/
def frenchMonthLong : Fin 12 → String
  | 0 => "janvier"
  | 1 => "février"
  | 2 => "mars"
  | 3 => "avril"
  | 4 => "mai"
  | 5 => "juin"
  | 6 => "juillet"
  | 7 => "août"
  | 8 => "septembre"
  | 9 => "octobre"
  | 10 => "novembre"
  | 11 => "décembre"

/-- Abbreviated French month names. -/
def frenchMonthShort : Fin 12 → String
  | 0 => "janv."
  | 1 => "févr."
  | 2 => "mars"
  | 3 => "avr."
  | 4 => "mai"
  | 5 => "juin"
  | 6 => "juil."
  | 7 => "août"
  | 8 => "sept."
  | 9 => "oct."
  | 10 => "nov."
  | 11 => "déc."

/-- French month initials. -/
def frenchMonthNarrow : Fin 12 → String
  | 0 => "J"
  | 1 => "F"
  | 2 => "M"
  | 3 => "A"
  | 4 => "M"
  | 5 => "J"
  | 6 => "J"
  | 7 => "A"
  | 8 => "S"
  | 9 => "O"
  | 10 => "N"
  | 11 => "D"

/-- Rendering of the month in French. -/
def renderMonth (m : Fin 12) : MonthStyle → String
  | .numeric => toString (m.val + 1)
  | .twoDigit => pad2 (m.val + 1)
  | .long => frenchMonthLong m
  | .short => frenchMonthShort m
  | .narrow => frenchMonthNarrow m

/-- Day of the week in the proleptic Gregorian calendar, 0 = Sunday. -/
def dayOfWeek (year : Int) (month : Fin 12) (day : Nat) : Fin 7 :=
  let shift : Int := [0, 3, 2, 5, 0, 3, 5, 1, 4, 6, 2, 4].getD month.val 0
  let y : Int := if month.val < 2 then year - 1 else year
  ⟨((y + y / 4 - y / 100 + y / 400 + shift + (day : Int)) % 7).toNat % 7,
    Nat.mod_lt _ (by decide)⟩

/-- French weekday names, Sunday first. -/
def frenchWeekday : Fin 7 → NameStyle → String
  | 0, .long => "dimanche"
  | 1, .long => "lundi"
  | 2, .long => "mardi"
  | 3, .long => "mercredi"
  | 4, .long => "jeudi"
  | 5, .long => "vendredi"
  | 6, .long => "samedi"
  | 0, .short => "dim."
  | 1, .short => "lun."
  | 2, .short => "mar."
  | 3, .short => "mer."
  | 4, .short => "jeu."
  | 5, .short => "ven."
  | 6, .short => "sam."
  | 0, .narrow => "D"
  | 1, .narrow => "L"
  | 2, .narrow => "M"
  | 3, .narrow => "M"
  | 4, .narrow => "J"
  | 5, .narrow => "V"
  | 6, .narrow => "S"

/-- The part for one field: nothing when the option is absent, else the field
rendered in the requested style. -/
def optPart (t : PartType) (render : α → String) : Option α → List Part
  | none => []
  | some style => [{ type := t, value := render style }]

/-- Parts joined by a literal separator. -/
def joinParts (sep : String) : List Part → List Part
  | [] => []
  | [p] => [p]
  | p :: q :: rest => p :: { type := .literal, value := sep } :: joinParts sep (q :: rest)

/-- The date parts of the French pattern, in the order weekday, day, month,
year, separated by spaces; only the requested fields appear. -/
def frenchDateParts (f : DateFields) (o : ResolvedOptions) : List Part :=
  joinParts " "
    (optPart .weekday (frenchWeekday (dayOfWeek f.year f.month f.day)) o.weekday
      ++ optPart .day (renderNum f.day) o.day
      ++ optPart .month (renderMonth f.month) o.month
      ++ optPart .year (renderNum (yearOfEra f.year)) o.year)

/-- Two runs of parts with a literal between them when both are present. -/
def glueParts (sep : String) (a b : List Part) : List Part :=
  match a, b with
  | [], b => b
  | a, [] => a
  | a, b => a ++ { type := .literal, value := sep } :: b

/-- The time parts of the French pattern: hour, minute, second separated by
colons, then a space and the zone name; only the requested fields appear. -/
def frenchTimeParts (host : Host) (f : DateFields) (o : ResolvedOptions) : List Part :=
  glueParts " "
    (joinParts ":"
      (optPart .hour (renderNum f.hour.val) o.hour
        ++ optPart .minute (renderNum f.minute.val) o.minute
        ++ optPart .second (renderNum f.second.val) o.second))
    (optPart .timeZoneName host.timeZoneName o.timeZoneName)

/-- The method `formatToParts` for the locale `fr-FR`: date parts, then time
parts, with the host's glue between them when both are present. -/
def frenchParts (host : Host) (f : DateFields) (o : ResolvedOptions) : List Part :=
  glueParts host.dateTimeGlue (frenchDateParts f o) (frenchTimeParts host f o)

/-- The text of a list of parts. -/
def partsText (ps : List Part) : String :=
  String.join (ps.map (fun p => p.value))

/-- The method `Date.prototype.toLocaleString(locales, options)`: an invalid
date gives the string `Invalid Date` before locale and options are looked at;
for a valid one the options are validated, which may throw, and the date is
rendered by the locale. -/
def toLocaleString (host : Host) (date : JsDate) (locales : String) (options : Options) :
    Completion String :=
  match date with
  | .invalid => .normal "Invalid Date"
  | .valid f =>
    (resolveOptions options).andThen fun o =>
      if locales = "fr-FR" then .normal (partsText (frenchParts host f o))
      else host.otherLocale locales f o

/-- The options object literal of lines 20–26. -/
def formatDateOptions : Options :=
  { year := some "numeric",
    month := some "long",
    day := some "numeric",
    hour := some "2-digit",
    minute := some "2-digit" }

/-- The function `formatDate(dateString)`, lines 18–27:
`const date = new Date(dateString); return date.toLocaleString('fr-FR', ...)`. -/
def formatDate (host : Host) (dateString : String) : Completion String :=
  let date := host.newDate dateString
  toLocaleString host date "fr-FR" formatDateOptions

/-- The types of the parts that are not literals, in order. -/
def fieldTypes (ps : List Part) : List PartType :=
  (ps.filter (fun p => p.type != .literal)).map (fun p => p.type)

/-! ### A concrete host, to evaluate `formatDate` on given strings -/

/-- The value of a decimal digit character. -/
def digitValue (c : Char) : Option Nat :=
  if c.isDigit then some (c.toNat - 48) else none

/-- The number written by a list of decimal digits. -/
def digitsValue : List Char → Option Nat
  | [] => some 0
  | c :: cs =>
    match digitValue c, digitsValue cs with
    | some d, some r => some (d * 10 ^ cs.length + r)
    | _, _ => none

/-- Number of days of a month (zero-based) in the Gregorian calendar. -/
def daysInMonth (year : Nat) (month : Nat) : Nat :=
  if month = 1 then
    if year % 4 = 0 ∧ (year % 100 ≠ 0 ∨ year % 400 = 0) then 29 else 28
  else if month = 3 ∨ month = 5 ∨ month = 8 ∨ month = 10 then 30
  else 31

/-- Builds the fields when every number is in range. -/
def mkFields (y mo d h mi s : Nat) : JsDate :=
  if hmo : 1 ≤ mo ∧ mo ≤ 12 then
    if 1 ≤ d ∧ d ≤ daysInMonth y (mo - 1) then
      if hh : h < 24 then
        if hmi : mi < 60 then
          if hs : s < 60 then
            .valid { year := (y : Int), month := ⟨mo - 1, by omega⟩, day := d,
                     hour := ⟨h, hh⟩, minute := ⟨mi, hmi⟩, second := ⟨s, hs⟩ }
          else .invalid
        else .invalid
      else .invalid
    else .invalid
  else .invalid

/-- A date parser reading exactly the ECMAScript local date-time form
`YYYY-MM-DDTHH:mm:ss` (hours 00 to 23) and nothing else. -/
def parseIsoLocal (s : String) : JsDate :=
  match s.toList with
  | [y1, y2, y3, y4, '-', m1, m2, '-', d1, d2, 'T', h1, h2, ':', n1, n2, ':', s1, s2] =>
    match digitsValue [y1, y2, y3, y4], digitsValue [m1, m2], digitsValue [d1, d2],
          digitsValue [h1, h2], digitsValue [n1, n2], digitsValue [s1, s2] with
    | some y, some mo, some d, some h, some mi, some sec => mkFields y mo d h mi sec
    | _, _, _, _, _, _ => .invalid
  | _ => .invalid

/-- A host that parses with `parseIsoLocal`, glues date and time with " à ",
and names its zone UTC. -/
def referenceHost : Host :=
  { newDate := parseIsoLocal,
    dateTimeGlue := " à ",
    timeZoneName := fun _ => "UTC",
    otherLocale := fun _ _ _ => .normal "" }


/-! # Theorems -/

/-! ## Lemmas on the dismiss loop -/

theorem dismissAlert_ok (tk : Toolkit) (a : Element) (w : World)
    (hc : tk.constructorThrows a = false) (hx : tk.closeThrows a = false) :
    dismissAlert tk a w =
      { world := { document := w.document.filter (fun e => e.id != a.id),
                   constructed := w.constructed ++ [a],
                   closed := w.closed ++ [a] },
        fault := none } := by
  simp [dismissAlert, newAlert, alertClose, hc, hx]

theorem dismissAlert_ctor_throws (tk : Toolkit) (a : Element) (w : World)
    (hc : tk.constructorThrows a = true) :
    dismissAlert tk a w = { world := w, fault := some (.alertConstructor a) } := by
  simp [dismissAlert, newAlert, hc]

theorem dismissAlert_close_throws (tk : Toolkit) (a : Element) (w : World)
    (hc : tk.constructorThrows a = false) (hx : tk.closeThrows a = true) :
    dismissAlert tk a w =
      { world := { w with constructed := w.constructed ++ [a] },
        fault := some (.alertClose a) } := by
  simp [dismissAlert, newAlert, alertClose, hc, hx]

/-- A loop over elements the toolkit accepts closes all of them, in order. -/
theorem forEach_ok (tk : Toolkit) (as : List Element) :
    ∀ w : World,
      (∀ a ∈ as, tk.constructorThrows a = false ∧ tk.closeThrows a = false) →
      forEach (dismissAlert tk) as w =
        { world := { document := w.document.filter (fun e => as.all (fun a => e.id != a.id)),
                     constructed := w.constructed ++ as,
                     closed := w.closed ++ as },
          fault := none } := by
  induction as with
  | nil => intro w _; simp [forEach]
  | cons a as ih =>
    intro w h
    have ha := h a (List.mem_cons_self _ _)
    have hrest : ∀ b ∈ as, tk.constructorThrows b = false ∧ tk.closeThrows b = false :=
      fun b hb => h b (List.mem_cons_of_mem _ hb)
    simp only [forEach, dismissAlert_ok tk a w ha.1 ha.2]
    rw [ih _ hrest]
    simp [List.filter_filter, Bool.and_comm]

/-- A loop stopped by the first element the toolkit rejects. -/
theorem forEach_throws (tk : Toolkit) (pre : List Element) (k : Element) (post : List Element) :
    ∀ w : World,
      (∀ a ∈ pre, tk.constructorThrows a = false ∧ tk.closeThrows a = false) →
      (tk.constructorThrows k = true ∨ tk.closeThrows k = true) →
      forEach (dismissAlert tk) (pre ++ k :: post) w =
        { world := { document := w.document.filter (fun e => pre.all (fun a => e.id != a.id)),
                     constructed :=
                       w.constructed ++ pre ++ (if tk.constructorThrows k then [] else [k]),
                     closed := w.closed ++ pre },
          fault := some (if tk.constructorThrows k then .alertConstructor k
                         else .alertClose k) } := by
  induction pre with
  | nil =>
    intro w _ hk
    cases hc : tk.constructorThrows k with
    | true => simp [forEach, dismissAlert_ctor_throws tk k w hc]
    | false =>
      have hx : tk.closeThrows k = true := by simpa [hc] using hk
      simp [forEach, dismissAlert_close_throws tk k w hc hx]
  | cons a pre ih =>
    intro w h hk
    have ha := h a (List.mem_cons_self _ _)
    have hrest : ∀ b ∈ pre, tk.constructorThrows b = false ∧ tk.closeThrows b = false :=
      fun b hb => h b (List.mem_cons_of_mem _ hb)
    rw [List.cons_append]
    simp only [forEach, dismissAlert_ok tk a w ha.1 ha.2]
    rw [ih _ hrest hk]
    simp [List.filter_filter, Bool.and_comm]

/-- Whatever the toolkit does, the loop closes a prefix of the list it is given,
and leaves in the document only elements that were there. -/
theorem forEach_closed_initial (tk : Toolkit) (as : List Element) :
    ∀ w : World, ∃ n, (forEach (dismissAlert tk) as w).world.closed = w.closed ++ as.take n := by
  induction as with
  | nil => intro w; exact ⟨0, by simp [forEach]⟩
  | cons a as ih =>
    intro w
    cases hc : tk.constructorThrows a with
    | true =>
      exact ⟨0, by simp [forEach, dismissAlert_ctor_throws tk a w hc]⟩
    | false =>
      cases hx : tk.closeThrows a with
      | true =>
        exact ⟨0, by simp [forEach, dismissAlert_close_throws tk a w hc hx]⟩
      | false =>
        obtain ⟨n, hn⟩ := ih { document := w.document.filter (fun e => e.id != a.id),
                               constructed := w.constructed ++ [a],
                               closed := w.closed ++ [a] }
        refine ⟨n + 1, ?_⟩
        simp only [forEach, dismissAlert_ok tk a w hc hx]
        rw [hn]
        simp

theorem alerts_nodup (doc : List Element) (hids : (doc.map (fun e => e.id)).Nodup)
    (sel : Selector) : (querySelectorAll doc sel).Nodup :=
  (List.Nodup.of_map _ hids).filter _

theorem mem_alerts (doc : List Element) (sel : Selector) (e : Element) :
    e ∈ querySelectorAll doc sel ↔ e ∈ doc ∧ e.matchesSel sel = true := by
  simp [querySelectorAll, List.mem_filter]

/-! ## Lemmas on the host loop -/

theorem pageLoaded_eq (tk : Toolkit) (doc : List Element) (now : Nat) :
    pageLoaded tk doc now =
      { world := { document := doc, constructed := [], closed := [] },
        clock := now, listeners := 1,
        timers := [{ delay := 5000, due := now + 5000 }],
        armed := [5000], callbackRuns := 0, uncaught := [] } := by
  simp [pageLoaded, step, loadScript, Page.fresh, onDOMContentLoaded, setTimeout, List.range_succ]

theorem run_nil (tk : Toolkit) (p : Page) : run tk p [] = p := rfl

theorem run_cons (tk : Toolkit) (p : Page) (ev : HostEvent) (evs : List HostEvent) :
    run tk p (ev :: evs) = run tk (step tk p ev) evs := rfl

theorem run_append (tk : Toolkit) (p : Page) (xs ys : List HostEvent) :
    run tk p (xs ++ ys) = run tk (run tk p xs) ys := by
  simp [run, List.foldl_append]

/-- Timers that are not due stay pending, in order. -/
theorem foldl_runTimer_pending (tk : Toolkit) (ts : List Timer) :
    ∀ q : Page, (∀ t ∈ ts, q.clock < t.due) →
      ts.foldl (runTimer tk) q = { q with timers := q.timers ++ ts } := by
  induction ts with
  | nil => intro q _; simp
  | cons t ts ih =>
    intro q h
    have ht : ¬ t.due ≤ q.clock := Nat.not_le.mpr (h t (List.mem_cons_self _ _))
    have hrest : ∀ u ∈ ts, q.clock < u.due := fun u hu => h u (List.mem_cons_of_mem _ hu)
    simp only [List.foldl_cons, runTimer, ht, if_false]
    rw [ih { q with timers := q.timers ++ [t] } hrest]
    simp

/-- As long as no timer becomes due and no page load is dispatched, the events
only advance the clock and change the document as the other agents dictate. -/
theorem run_quiet (tk : Toolkit) (evs : List HostEvent) :
    ∀ p : Page, hasLoadEvent evs = false →
      (∀ t ∈ p.timers, p.clock + elapsed evs < t.due) →
      run tk p evs =
        { p with
          clock := p.clock + elapsed evs
          world := { p.world with document := documentAfter evs p.world.document } } := by
  induction evs with
  | nil => intro p _ _; simp [run_nil, elapsed, documentAfter]
  | cons ev evs ih =>
    intro p hl ht
    cases ev with
    | domContentLoaded => simp [hasLoadEvent] at hl
    | elapse ms =>
      have hl2 : hasLoadEvent evs = false := by simpa [hasLoadEvent] using hl
      have hstep : step tk p (.elapse ms) = { p with clock := p.clock + ms } := by
        simp only [step]
        rw [foldl_runTimer_pending tk p.timers { p with clock := p.clock + ms, timers := [] }]
        · simp
        · intro t htm
          have := ht t htm
          simp only [elapsed] at this
          show p.clock + ms < t.due
          omega
      rw [run_cons, hstep, ih _ hl2]
      · simp [elapsed, documentAfter, Nat.add_assoc]
      · intro t htm
        have := ht t htm
        simp only [elapsed] at this
        show p.clock + ms + elapsed evs < t.due
        omega
    | insert e =>
      have hl2 : hasLoadEvent evs = false := by simpa [hasLoadEvent] using hl
      rw [run_cons, ih _ hl2]
      · simp [step, elapsed, documentAfter]
      · intro t htm
        have := ht t htm
        simpa [step, elapsed] using this
    | remove id =>
      have hl2 : hasLoadEvent evs = false := by simpa [hasLoadEvent] using hl
      rw [run_cons, ih _ hl2]
      · simp [step, elapsed, documentAfter]
      · intro t htm
        have := ht t htm
        simpa [step, elapsed] using this

/-- The step at which the single pending timer becomes due: the callback runs
once on the world of that moment, and the timer is gone. -/
theorem step_fire (tk : Toolkit) (p : Page) (t : Timer) (ms : Nat)
    (hp : p.timers = [t]) (hd : t.due ≤ p.clock + ms) :
    step tk p (.elapse ms) =
      { p with
        clock := p.clock + ms
        timers := []
        world := (timerCallback tk p.world).world
        callbackRuns := p.callbackRuns + 1
        uncaught := p.uncaught ++ (timerCallback tk p.world).fault.toList } := by
  simp [step, hp, runTimer, hd]

theorem hasLoadEvent_append (xs ys : List HostEvent) :
    hasLoadEvent (xs ++ ys) = (hasLoadEvent xs || hasLoadEvent ys) := by
  induction xs with
  | nil => simp [hasLoadEvent]
  | cons x xs ih => cases x <;> simp [hasLoadEvent, ih]

theorem elapsed_append (xs ys : List HostEvent) :
    elapsed (xs ++ ys) = elapsed xs + elapsed ys := by
  induction xs with
  | nil => simp [elapsed]
  | cons x xs ih => cases x <;> simp [elapsed, ih, Nat.add_assoc]

theorem onlyElapse_append (xs ys : List HostEvent) :
    onlyElapse (xs ++ ys) = (onlyElapse xs && onlyElapse ys) := by
  induction xs with
  | nil => simp [onlyElapse]
  | cons x xs ih => cases x <;> simp [onlyElapse, ih]

theorem onlyElapse_noLoad (evs : List HostEvent) (h : onlyElapse evs = true) :
    hasLoadEvent evs = false := by
  induction evs with
  | nil => rfl
  | cons x xs ih => cases x <;> simp_all [onlyElapse, hasLoadEvent]

theorem onlyElapse_documentAfter (evs : List HostEvent) (h : onlyElapse evs = true)
    (d : List Element) : documentAfter evs d = d := by
  induction evs with
  | nil => rfl
  | cons x xs ih => cases x <;> simp_all [onlyElapse, documentAfter]

/-- A sequence of events during which a deadline passes splits at the `elapse`
event that crosses it. -/
theorem split_at_deadline (evs : List HostEvent) :
    ∀ c d : Nat, c < d → d ≤ c + elapsed evs →
      ∃ pre ms post, evs = pre ++ HostEvent.elapse ms :: post ∧
        c + elapsed pre < d ∧ d ≤ c + elapsed pre + ms := by
  induction evs with
  | nil => intro c d h1 h2; simp [elapsed] at h2; omega
  | cons x xs ih =>
    intro c d h1 h2
    cases x with
    | elapse ms =>
      by_cases hf : d ≤ c + ms
      · exact ⟨[], ms, xs, by simp, by simpa [elapsed] using h1, by simpa [elapsed] using hf⟩
      · have h3 : d ≤ (c + ms) + elapsed xs := by simp only [elapsed] at h2; omega
        obtain ⟨pre, m2, post, he, ha, hb⟩ := ih (c + ms) d (by omega) h3
        refine ⟨HostEvent.elapse ms :: pre, m2, post, by simp [he], ?_, ?_⟩ <;>
          simp only [elapsed] <;> omega
    | domContentLoaded =>
      obtain ⟨pre, ms, post, he, ha, hb⟩ := ih c d h1 (by simpa [elapsed] using h2)
      exact ⟨HostEvent.domContentLoaded :: pre, ms, post, by simp [he],
        by simpa [elapsed] using ha, by simpa [elapsed] using hb⟩
    | insert e =>
      obtain ⟨pre, ms, post, he, ha, hb⟩ := ih c d h1 (by simpa [elapsed] using h2)
      exact ⟨HostEvent.insert e :: pre, ms, post, by simp [he], by simpa [elapsed] using ha,
        by simpa [elapsed] using hb⟩
    | remove id =>
      obtain ⟨pre, ms, post, he, ha, hb⟩ := ih c d h1 (by simpa [elapsed] using h2)
      exact ⟨HostEvent.remove id :: pre, ms, post, by simp [he], by simpa [elapsed] using ha,
        by simpa [elapsed] using hb⟩

/-- Before the delay has passed the page only waits: the timer is pending and
the script has touched nothing. -/
theorem pageAfter_pending (tk : Toolkit) (doc : List Element) (now : Nat)
    (evs : List HostEvent) (hl : hasLoadEvent evs = false) (ht : elapsed evs < 5000) :
    pageAfter tk doc now evs =
      { world := { document := documentAfter evs doc, constructed := [], closed := [] },
        clock := now + elapsed evs, listeners := 1,
        timers := [{ delay := 5000, due := now + 5000 }],
        armed := [5000], callbackRuns := 0, uncaught := [] } := by
  unfold pageAfter
  rw [pageLoaded_eq, run_quiet tk evs _ hl]
  intro t htm
  simp only [List.mem_singleton] at htm
  subst htm
  show now + elapsed evs < now + 5000
  omega

/-- Once the delay has passed the callback has run exactly once, on the document
of the moment the timer fired; later events change nothing but the clock and
the document. -/
theorem pageAfter_fired (tk : Toolkit) (doc : List Element) (now : Nat)
    (pre : List HostEvent) (ms : Nat) (post : List HostEvent)
    (hpre : hasLoadEvent pre = false) (hpost : hasLoadEvent post = false)
    (h1 : elapsed pre < 5000) (h2 : 5000 ≤ elapsed pre + ms) :
    pageAfter tk doc now (pre ++ HostEvent.elapse ms :: post) =
      { world :=
          { (timerCallback tk
                { document := documentAfter pre doc, constructed := [], closed := [] }).world with
            document := documentAfter post
              (timerCallback tk
                { document := documentAfter pre doc, constructed := [],
                  closed := [] }).world.document },
        clock := now + elapsed pre + ms + elapsed post, listeners := 1,
        timers := [], armed := [5000], callbackRuns := 1,
        uncaught :=
          (timerCallback tk
            { document := documentAfter pre doc, constructed := [],
              closed := [] }).fault.toList } := by
  have hp := pageAfter_pending tk doc now pre hpre h1
  unfold pageAfter at hp ⊢
  rw [run_append, hp, run_cons,
    step_fire tk _ { delay := 5000, due := now + 5000 } ms rfl (by show now + 5000 ≤ now + elapsed pre + ms; omega),
    run_quiet tk post _ hpost (by intro t htm; simp at htm)]
  simp

/-- The page once the delay has passed with nothing but time passing and a
toolkit that accepts every alert of the loaded document. -/
theorem pageAfter_elapsed_ok (tk : Toolkit) (doc : List Element) (now : Nat)
    (evs : List HostEvent)
    (htk : ∀ a ∈ querySelectorAll doc (.cls "alert"),
      tk.constructorThrows a = false ∧ tk.closeThrows a = false)
    (hevs : onlyElapse evs = true) (hdelay : 5000 ≤ elapsed evs) :
    pageAfter tk doc now evs =
      { world :=
          { document := doc.filter (fun e =>
              (querySelectorAll doc (.cls "alert")).all (fun a => e.id != a.id)),
            constructed := querySelectorAll doc (.cls "alert"),
            closed := querySelectorAll doc (.cls "alert") },
        clock := now + elapsed evs, listeners := 1, timers := [], armed := [5000],
        callbackRuns := 1, uncaught := [] } := by
  obtain ⟨pre, ms, post, rfl, ha, hb⟩ :=
    split_at_deadline evs 0 5000 (by decide) (by omega)
  rw [onlyElapse_append] at hevs
  simp only [Bool.and_eq_true, onlyElapse] at hevs
  obtain ⟨hpre, hpost⟩ := hevs
  rw [pageAfter_fired tk doc now pre ms post (onlyElapse_noLoad _ hpre)
    (onlyElapse_noLoad _ hpost) (by omega) (by omega)]
  simp only [onlyElapse_documentAfter pre hpre, onlyElapse_documentAfter post hpost]
  simp only [timerCallback]
  rw [forEach_ok tk _ _ htk]
  simp [elapsed_append, elapsed, Nat.add_assoc]

/-! ## Lemmas on date rendering -/

/-- A number from 1000 to 9999 is written with four digits. -/
theorem toString_length_four (n : Nat) (h1 : 1000 ≤ n) (h2 : n ≤ 9999) :
    (toString n).length = 4 := by
  obtain ⟨m, rfl⟩ : ∃ m, n = m + 1000 := ⟨n - 1000, by omega⟩
  have e1 : (m + 1000) / 10 ≠ 0 := by omega
  have e2 : (m + 1000) / 10 / 10 ≠ 0 := by omega
  have e3 : (m + 1000) / 10 / 10 / 10 ≠ 0 := by omega
  have e4 : (m + 1000) / 10 / 10 / 10 / 10 = 0 := by omega
  show (Nat.repr (m + 1000)).length = 4
  simp only [Nat.repr, Nat.toDigits]
  rw [show m + 1000 + 1 = (m + 997) + 1 + 1 + 1 + 1 by omega]
  simp [Nat.toDigitsCore, e1, e2, e3, e4, List.asString]

theorem pad2_length_hour : ∀ h : Fin 24, (pad2 h.val).length = 2 := by decide

theorem pad2_length_minute : ∀ m : Fin 60, (pad2 m.val).length = 2 := by decide

/-- The options of `formatDate` are valid: day and year numeric, month long,
hour and minute on two digits, nothing else. -/
theorem resolveOptions_formatDateOptions :
    resolveOptions formatDateOptions =
      .normal { weekday := none, year := some .numeric, month := some .long,
                day := some .numeric, hour := some .twoDigit, minute := some .twoDigit,
                second := none, timeZoneName := none } := by
  decide

/-- The parts `formatDate` asks the French locale for. -/
theorem frenchParts_formatDate (host : Host) (f : DateFields) :
    frenchParts host f
        { weekday := none, year := some .numeric, month := some .long,
          day := some .numeric, hour := some .twoDigit, minute := some .twoDigit,
          second := none, timeZoneName := none } =
      [ { type := .day, value := toString f.day },
        { type := .literal, value := " " },
        { type := .month, value := frenchMonthLong f.month },
        { type := .literal, value := " " },
        { type := .year, value := toString (yearOfEra f.year) },
        { type := .literal, value := host.dateTimeGlue },
        { type := .hour, value := pad2 f.hour.val },
        { type := .literal, value := ":" },
        { type := .minute, value := pad2 f.minute.val } ] := by
  have hh : f.hour.val % 100 = f.hour.val := Nat.mod_eq_of_lt (by omega)
  have hm : f.minute.val % 100 = f.minute.val := Nat.mod_eq_of_lt (by omega)
  simp [frenchParts, frenchDateParts, frenchTimeParts, glueParts, joinParts, optPart,
    renderNum, renderMonth, hh, hm]

/-- The call `formatDate` makes on a valid date, as a list of parts. -/
theorem formatDate_parts (host : Host) (s : String) (f : DateFields)
    (h : host.newDate s = .valid f) :
    formatDate host s =
      .normal (partsText (frenchParts host f
        { weekday := none, year := some .numeric, month := some .long,
          day := some .numeric, hour := some .twoDigit, minute := some .twoDigit,
          second := none, timeZoneName := none })) := by
  simp [formatDate, toLocaleString, h, resolveOptions_formatDateOptions, Completion.andThen]

/-! ## The claims -/

/-- C1: for every message argument (absent, `null` or any string) and every
user, `confirmDelete` returns exactly the answer the user gives to the dialog
it shows; with a user who answers `answer`, it returns `answer`: `true` on
acceptance, `false` otherwise. -/
theorem confirmDelete_returns_user_answer (user : String → Bool) (message : JsValue)
    (answer : Bool) :
    (confirmDelete user message).returned = user (confirmDelete user message).shown ∧
    (confirmDelete (fun _ => answer) message).returned = answer := by
  simp [confirmDelete, confirm]

/-- C2, as stated, fails on the empty string: it is falsy, so `message || default`
selects the default text and the dialog does not show the (empty) message. -/
theorem confirmDelete_empty_message_shows_default :
    (confirmDelete (fun _ => true) (.string "")).shown = defaultMessage ∧
    (confirmDelete (fun _ => true) (.string "")).shown ≠ "" := by
  decide

/-- C2, amended: for every non-empty message string, the text passed to the
dialog is exactly that message. -/
theorem confirmDelete_shows_nonempty_message (user : String → Bool) (s : String)
    (hs : s ≠ "") :
    (confirmDelete user (.string s)).shown = s := by
  simp [confirmDelete, confirm, JsValue.or, JsValue.truthy, JsValue.toText, hs]

/-- An instance of C2 as amended: a caller's own question is shown as is. -/
theorem confirmDelete_shows_nonempty_message_witness :
    "Supprimer la salle ?" ≠ "" ∧
    (confirmDelete (fun _ => false) (.string "Supprimer la salle ?")).shown
      = "Supprimer la salle ?" :=
  ⟨by decide, confirmDelete_shows_nonempty_message _ _ (by decide)⟩

/-- C3: called without a message (`undefined`), `confirmDelete` shows exactly the
French default text. -/
theorem confirmDelete_default_text (user : String → Bool) :
    (confirmDelete user .undefined).shown
      = "Êtes-vous sûr de vouloir supprimer cet élément ?" := by
  simp [confirmDelete, confirm, JsValue.or, JsValue.truthy, JsValue.toText, defaultMessage]

/-- C4, as stated, fails in two ways. When `close` throws on the second alert of
the sample document, the callback has run, yet only the first alert has been
closed and the alerts 3 and 4 are still displayed. When alert 1 is removed by
someone else before the timer fires, it is never closed through the toolkit. -/
theorem alerts_not_all_dismissed :
    (pageAfter faultyToolkit sampleDocument 0 [.elapse 5000]).callbackRuns = 1 ∧
    (pageAfter faultyToolkit sampleDocument 0 [.elapse 5000]).world.closed
      = [{ id := 1, classList := ["alert", "alert-success"] }] ∧
    (pageAfter faultyToolkit sampleDocument 0 [.elapse 5000]).world.closed
      ≠ querySelectorAll sampleDocument (.cls "alert") ∧
    ({ id := 4, classList := ["alert"] } : Element)
      ∈ (pageAfter faultyToolkit sampleDocument 0 [.elapse 5000]).world.document ∧
    (pageAfter workingToolkit sampleDocument 0 [.remove 1, .elapse 5000]).callbackRuns = 1 ∧
    ({ id := 1, classList := ["alert", "alert-success"] } : Element)
      ∈ querySelectorAll sampleDocument (.cls "alert") ∧
    ({ id := 1, classList := ["alert", "alert-success"] } : Element)
      ∉ (pageAfter workingToolkit sampleDocument 0 [.remove 1, .elapse 5000]).world.closed := by
  decide

/-- C4, amended: a page is loaded showing `doc`, whose elements are distinct;
then only time passes, at least 5000 ms of it, nothing else changing the
document; and the toolkit throws on none of the alert elements. Then the
callback has run once without exception, the elements closed are exactly the
`.alert` elements of `doc`, each closed exactly once, no other element has been
closed, and no `.alert` element is displayed any more. -/
theorem alerts_all_dismissed_after_delay (tk : Toolkit) (doc : List Element) (now : Nat)
    (evs : List HostEvent)
    (hids : (doc.map (fun e => e.id)).Nodup)
    (htk : ∀ a ∈ querySelectorAll doc (.cls "alert"),
      tk.constructorThrows a = false ∧ tk.closeThrows a = false)
    (hevs : onlyElapse evs = true) (hdelay : 5000 ≤ elapsed evs) :
    (pageAfter tk doc now evs).callbackRuns = 1 ∧
    (pageAfter tk doc now evs).uncaught = [] ∧
    (pageAfter tk doc now evs).world.closed = querySelectorAll doc (.cls "alert") ∧
    (∀ e ∈ doc, e.matchesSel (.cls "alert") = true →
      (pageAfter tk doc now evs).world.closed.count e = 1) ∧
    (∀ e, e.matchesSel (.cls "alert") = false →
      e ∉ (pageAfter tk doc now evs).world.closed) ∧
    (∀ e ∈ (pageAfter tk doc now evs).world.document,
      e.matchesSel (.cls "alert") = false) := by
  rw [pageAfter_elapsed_ok tk doc now evs htk hevs hdelay]
  refine ⟨rfl, rfl, rfl, ?_, ?_, ?_⟩
  · intro e he ha
    exact List.count_eq_one_of_mem (alerts_nodup doc hids _) ((mem_alerts _ _ _).mpr ⟨he, ha⟩)
  · intro e he hin
    have := ((mem_alerts _ _ _).mp hin).2
    simp [he] at this
  · intro e he
    simp only [List.mem_filter, List.all_eq_true] at he
    cases hm : e.matchesSel (.cls "alert") with
    | false => rfl
    | true =>
      have := he.2 e ((mem_alerts _ _ _).mpr ⟨he.1, hm⟩)
      simp at this

/-- An instance of C4 as amended: the sample document, 2000 ms then 3000 ms
passing, with a toolkit that never throws. -/
theorem alerts_all_dismissed_after_delay_witness :
    (sampleDocument.map (fun e => e.id)).Nodup ∧
    (∀ a ∈ querySelectorAll sampleDocument (.cls "alert"),
      workingToolkit.constructorThrows a = false ∧ workingToolkit.closeThrows a = false) ∧
    onlyElapse [.elapse 2000, .elapse 3000] = true ∧
    5000 ≤ elapsed [.elapse 2000, .elapse 3000] ∧
    (pageAfter workingToolkit sampleDocument 0 [.elapse 2000, .elapse 3000]).callbackRuns = 1 ∧
    (pageAfter workingToolkit sampleDocument 0 [.elapse 2000, .elapse 3000]).uncaught = [] ∧
    (pageAfter workingToolkit sampleDocument 0 [.elapse 2000, .elapse 3000]).world.closed
      = [ { id := 1, classList := ["alert", "alert-success"] },
          { id := 3, classList := ["alert", "alert-danger", "fade"] },
          { id := 4, classList := ["alert"] } ] ∧
    (pageAfter workingToolkit sampleDocument 0 [.elapse 2000, .elapse 3000]).world.document
      = [{ id := 2, classList := ["navbar"] }] :=
  ⟨by decide, by decide, by decide, by decide,
    (alerts_all_dismissed_after_delay workingToolkit sampleDocument 0
      [.elapse 2000, .elapse 3000] (by decide) (by decide) (by decide) (by decide)).1,
    (alerts_all_dismissed_after_delay workingToolkit sampleDocument 0
      [.elapse 2000, .elapse 3000] (by decide) (by decide) (by decide) (by decide)).2.1,
    (alerts_all_dismissed_after_delay workingToolkit sampleDocument 0
      [.elapse 2000, .elapse 3000] (by decide) (by decide) (by decide) (by decide)).2.2.1,
    by decide⟩

/-- C5, as stated, fails on the year: a valid date of the year 99 is rendered
with the year written "99", not with four digits. -/
theorem formatDate_year_99_not_four_digits :
    referenceHost.newDate "0099-01-01T09:05:00"
      = .valid { year := 99, month := 0, day := 1, hour := 9, minute := 5, second := 0 } ∧
    formatDate referenceHost "0099-01-01T09:05:00" = .normal "1 janvier 99 à 09:05" ∧
    (frenchParts referenceHost
        { year := 99, month := 0, day := 1, hour := 9, minute := 5, second := 0 }
        { weekday := none, year := some .numeric, month := some .long,
          day := some .numeric, hour := some .twoDigit, minute := some .twoDigit,
          second := none, timeZoneName := none }).filter (fun p => p.type == .year)
      = [{ type := .year, value := "99" }] ∧
    ("99" : String).length ≠ 4 := by
  decide

/-- C5, amended: for every date string the host parses to a valid date,
`formatDate` returns the French rendering made of exactly the day (plain
number), the full French month name, the year (plain number, four digits for
the years 1000 to 9999), the hour and the minute (two digits each), in this
order, with no second, weekday or zone name. -/
theorem formatDate_valid (host : Host) (s : String) (f : DateFields)
    (h : host.newDate s = .valid f) :
    formatDate host s
      = .normal (toString f.day ++ " " ++ frenchMonthLong f.month ++ " "
          ++ toString (yearOfEra f.year) ++ host.dateTimeGlue
          ++ pad2 f.hour.val ++ ":" ++ pad2 f.minute.val) ∧
    (∃ parts, formatDate host s = .normal (partsText parts) ∧
      fieldTypes parts = [.day, .month, .year, .hour, .minute]) ∧
    (pad2 f.hour.val).length = 2 ∧ (pad2 f.minute.val).length = 2 ∧
    (1000 ≤ f.year → f.year ≤ 9999 → (toString (yearOfEra f.year)).length = 4) := by
  refine ⟨?_, ⟨_, formatDate_parts host s f h, ?_⟩, pad2_length_hour _, pad2_length_minute _, ?_⟩
  · rw [formatDate_parts host s f h, frenchParts_formatDate]
    simp [partsText, String.join, String.append_assoc]
  · simp [frenchParts_formatDate, fieldTypes]
  · intro h1 h2
    apply toString_length_four
    · simp only [yearOfEra]; split <;> omega
    · simp only [yearOfEra]; split <;> omega

/-- An instance of C5: the date of the spec's example. -/
theorem formatDate_valid_witness :
    referenceHost.newDate "2024-03-15T14:30:00"
      = .valid { year := 2024, month := 2, day := 15, hour := 14, minute := 30, second := 0 } ∧
    formatDate referenceHost "2024-03-15T14:30:00" = .normal "15 mars 2024 à 14:30" ∧
    formatDate referenceHost "2024-03-15T14:30:00"
      = .normal (toString 15 ++ " " ++ frenchMonthLong 2 ++ " " ++ toString (yearOfEra 2024)
          ++ referenceHost.dateTimeGlue ++ pad2 14 ++ ":" ++ pad2 30) :=
  ⟨by decide, by decide,
    (formatDate_valid referenceHost "2024-03-15T14:30:00"
      { year := 2024, month := 2, day := 15, hour := 14, minute := 30, second := 0 }
      (by decide)).1⟩

/-- C6: for every string the host cannot parse as a date, `formatDate` does not
throw: it returns normally, and the value returned is the string
"Invalid Date". -/
theorem formatDate_invalid (host : Host) (s : String) (h : host.newDate s = .invalid) :
    formatDate host s = .normal "Invalid Date" := by
  simp [formatDate, toLocaleString, h]

/-- An instance of C6: the string of the spec's example. -/
theorem formatDate_invalid_witness :
    referenceHost.newDate "not-a-date" = .invalid ∧
    formatDate referenceHost "not-a-date" = .normal "Invalid Date" :=
  ⟨by decide, formatDate_invalid referenceHost "not-a-date" (by decide)⟩

/-- C7: after one page load, whatever else happens (time passing, elements
added or removed), the script has armed exactly one timer, with delay 5000; the
callback has run once if 5000 ms have passed and not at all before; before that
the timer is pending and nothing has been constructed or closed; afterwards no
timer is pending, so the callback never runs again. -/
theorem one_timer_of_5000_fires_once (tk : Toolkit) (doc : List Element) (now : Nat)
    (evs : List HostEvent) (hl : hasLoadEvent evs = false) :
    (pageAfter tk doc now evs).armed = [5000] ∧
    (pageAfter tk doc now evs).callbackRuns = (if 5000 ≤ elapsed evs then 1 else 0) ∧
    (elapsed evs < 5000 →
      (pageAfter tk doc now evs).timers = [{ delay := 5000, due := now + 5000 }] ∧
      (pageAfter tk doc now evs).world.constructed = [] ∧
      (pageAfter tk doc now evs).world.closed = []) ∧
    (5000 ≤ elapsed evs → (pageAfter tk doc now evs).timers = []) := by
  by_cases h : 5000 ≤ elapsed evs
  · obtain ⟨pre, ms, post, rfl, ha, hb⟩ := split_at_deadline evs 0 5000 (by decide) (by omega)
    rw [hasLoadEvent_append] at hl
    simp only [Bool.or_eq_false_iff, hasLoadEvent] at hl
    rw [pageAfter_fired tk doc now pre ms post hl.1 hl.2 (by omega) (by omega)]
    rw [if_pos h]
    exact ⟨rfl, rfl, fun hlt => absurd h (Nat.not_le.mpr hlt), fun _ => rfl⟩
  · rw [pageAfter_pending tk doc now evs hl (by omega)]
    rw [if_neg h]
    exact ⟨rfl, rfl, fun _ => ⟨rfl, rfl, rfl⟩, fun hge => absurd hge h⟩

/-- An instance of C7: an alert is inserted while the timer is pending, and time
goes on long after it has fired. -/
theorem one_timer_of_5000_fires_once_witness :
    hasLoadEvent
        [.elapse 1000, .insert { id := 9, classList := ["alert"] }, .elapse 4000,
          .elapse 60000] = false ∧
    (pageAfter workingToolkit sampleDocument 100
        [.elapse 1000, .insert { id := 9, classList := ["alert"] }, .elapse 4000,
          .elapse 60000]).armed = [5000] ∧
    (pageAfter workingToolkit sampleDocument 100
        [.elapse 1000, .insert { id := 9, classList := ["alert"] }, .elapse 4000,
          .elapse 60000]).callbackRuns = 1 ∧
    (pageAfter workingToolkit sampleDocument 100
        [.elapse 1000, .insert { id := 9, classList := ["alert"] }, .elapse 4000,
          .elapse 60000]).timers = [] :=
  ⟨by decide,
    (one_timer_of_5000_fires_once workingToolkit sampleDocument 100
      [.elapse 1000, .insert { id := 9, classList := ["alert"] }, .elapse 4000, .elapse 60000]
      (by decide)).1,
    (one_timer_of_5000_fires_once workingToolkit sampleDocument 100
      [.elapse 1000, .insert { id := 9, classList := ["alert"] }, .elapse 4000, .elapse 60000]
      (by decide)).2.1,
    (one_timer_of_5000_fires_once workingToolkit sampleDocument 100
      [.elapse 1000, .insert { id := 9, classList := ["alert"] }, .elapse 4000, .elapse 60000]
      (by decide)).2.2.2 (by decide)⟩

/-- C8: on a document without any `.alert` element the callback does nothing: no
`Alert` is constructed, no `close` is called, the document is unchanged and no
exception is raised, whatever the toolkit would do. -/
theorem timerCallback_without_alerts (tk : Toolkit) (w : World)
    (h : querySelectorAll w.document (.cls "alert") = []) :
    timerCallback tk w = { world := w, fault := none } := by
  simp [timerCallback, h, forEach]

/-- An instance of C8: a page without alerts, with a toolkit that would throw
on every call. -/
theorem timerCallback_without_alerts_witness :
    querySelectorAll
        ({ document := [{ id := 1, classList := ["navbar"] }, { id := 2, classList := [] }],
           constructed := [], closed := [] } : World).document (.cls "alert") = [] ∧
    timerCallback { constructorThrows := fun _ => true, closeThrows := fun _ => true }
        { document := [{ id := 1, classList := ["navbar"] }, { id := 2, classList := [] }],
          constructed := [], closed := [] }
      = { world :=
            { document := [{ id := 1, classList := ["navbar"] }, { id := 2, classList := [] }],
              constructed := [], closed := [] },
          fault := none } :=
  ⟨by decide, timerCallback_without_alerts _ _ (by decide)⟩

/-- C9, as stated, fails when the toolkit throws: alert 9 is added after the page
load and is an `.alert` element of the document when the timer fires, yet it is
not closed, because `close` throws on alert 3, which comes before it, and the
loop stops there. -/
theorem present_at_fire_yet_not_dismissed :
    elapsed [HostEvent.insert { id := 9, classList := ["alert"] }] < 5000 ∧
    ({ id := 9, classList := ["alert"] } : Element)
      ∈ querySelectorAll
          (documentAfter [HostEvent.insert { id := 9, classList := ["alert"] }] sampleDocument)
          (.cls "alert") ∧
    (pageAfter faultyToolkit sampleDocument 0
        ([HostEvent.insert { id := 9, classList := ["alert"] }]
          ++ HostEvent.elapse 5000 :: [])).callbackRuns = 1 ∧
    ({ id := 9, classList := ["alert"] } : Element)
      ∉ (pageAfter faultyToolkit sampleDocument 0
          ([HostEvent.insert { id := 9, classList := ["alert"] }]
            ++ HostEvent.elapse 5000 :: [])).world.closed := by
  decide

/-- C9, amended: the timer fires at the event `elapse ms` that completes the
5000 ms. The elements closed are those the callback closes on the document of
that moment (the loaded document as changed by the events before), whatever
happens afterwards, so an element added after the timer has fired is never
closed; an element is closed only if it is an `.alert` element present at that
moment; and, provided the toolkit throws on none of the `.alert` elements
present at that moment, an element is closed if and only if it is one of
them. -/
theorem dismissed_decided_when_timer_fires (tk : Toolkit) (doc : List Element) (now : Nat)
    (pre : List HostEvent) (ms : Nat) (post : List HostEvent)
    (hpre : hasLoadEvent pre = false) (hpost : hasLoadEvent post = false)
    (h1 : elapsed pre < 5000) (h2 : 5000 ≤ elapsed pre + ms) :
    (pageAfter tk doc now (pre ++ HostEvent.elapse ms :: post)).world.closed
      = (timerCallback tk
          { document := documentAfter pre doc, constructed := [], closed := [] }).world.closed ∧
    (pageAfter tk doc now (pre ++ HostEvent.elapse ms :: post)).world.closed
      = (pageAfter tk doc now (pre ++ [HostEvent.elapse ms])).world.closed ∧
    (∀ e ∈ (pageAfter tk doc now (pre ++ HostEvent.elapse ms :: post)).world.closed,
      e ∈ documentAfter pre doc ∧ e.matchesSel (.cls "alert") = true) ∧
    ((∀ a ∈ querySelectorAll (documentAfter pre doc) (.cls "alert"),
        tk.constructorThrows a = false ∧ tk.closeThrows a = false) →
      ∀ e, e ∈ (pageAfter tk doc now (pre ++ HostEvent.elapse ms :: post)).world.closed ↔
        (e ∈ documentAfter pre doc ∧ e.matchesSel (.cls "alert") = true)) := by
  rw [pageAfter_fired tk doc now pre ms post hpre hpost h1 h2,
    pageAfter_fired tk doc now pre ms [] hpre rfl h1 h2]
  refine ⟨rfl, rfl, ?_, ?_⟩
  · intro e he
    obtain ⟨n, hn⟩ := forEach_closed_initial tk
      (querySelectorAll (documentAfter pre doc) (.cls "alert"))
      { document := documentAfter pre doc, constructed := [], closed := [] }
    have he2 : e ∈ (querySelectorAll (documentAfter pre doc) (.cls "alert")).take n := by
      have : e ∈ (forEach (dismissAlert tk)
          (querySelectorAll (documentAfter pre doc) (.cls "alert"))
          { document := documentAfter pre doc, constructed := [], closed := [] }).world.closed :=
        he
      rw [hn] at this
      simpa using this
    exact (mem_alerts _ _ _).mp (List.mem_of_mem_take he2)
  · intro htk e
    simp only [timerCallback]
    rw [forEach_ok tk _ _ htk]
    simp [mem_alerts]

/-- An instance of C9 as amended: alert 9 is added and alert 1 removed before the
timer fires, alert 10 is added after it has fired; with a toolkit that never
throws, 3, 4 and 9 are closed, 1 and 10 are not. -/
theorem dismissed_decided_when_timer_fires_witness :
    hasLoadEvent
        [.elapse 1000, .insert { id := 9, classList := ["alert"] }, .remove 1, .elapse 3999]
      = false ∧
    hasLoadEvent [.insert { id := 10, classList := ["alert"] }, .elapse 60000] = false ∧
    elapsed [.elapse 1000, .insert { id := 9, classList := ["alert"] }, .remove 1, .elapse 3999]
      < 5000 ∧
    5000 ≤
      elapsed
          [.elapse 1000, .insert { id := 9, classList := ["alert"] }, .remove 1, .elapse 3999]
        + 1 ∧
    (pageAfter workingToolkit sampleDocument 0
        ([.elapse 1000, .insert { id := 9, classList := ["alert"] }, .remove 1, .elapse 3999]
          ++ HostEvent.elapse 1
            :: [.insert { id := 10, classList := ["alert"] }, .elapse 60000])).world.closed
      = (timerCallback workingToolkit
          { document :=
              documentAfter
                [.elapse 1000, .insert { id := 9, classList := ["alert"] }, .remove 1,
                  .elapse 3999] sampleDocument,
            constructed := [], closed := [] }).world.closed ∧
    (pageAfter workingToolkit sampleDocument 0
        ([.elapse 1000, .insert { id := 9, classList := ["alert"] }, .remove 1, .elapse 3999]
          ++ HostEvent.elapse 1
            :: [.insert { id := 10, classList := ["alert"] }, .elapse 60000])).world.closed
      = [ { id := 3, classList := ["alert", "alert-danger", "fade"] },
          { id := 4, classList := ["alert"] },
          { id := 9, classList := ["alert"] } ] ∧
    ({ id := 9, classList := ["alert"] } : Element)
      ∈ (pageAfter workingToolkit sampleDocument 0
          ([.elapse 1000, .insert { id := 9, classList := ["alert"] }, .remove 1, .elapse 3999]
            ++ HostEvent.elapse 1
              :: [.insert { id := 10, classList := ["alert"] }, .elapse 60000])).world.closed ∧
    ({ id := 10, classList := ["alert"] } : Element)
      ∉ (pageAfter workingToolkit sampleDocument 0
          ([.elapse 1000, .insert { id := 9, classList := ["alert"] }, .remove 1, .elapse 3999]
            ++ HostEvent.elapse 1
              :: [.insert { id := 10, classList := ["alert"] }, .elapse 60000])).world.closed :=
  ⟨by decide, by decide, by decide, by decide,
    (dismissed_decided_when_timer_fires workingToolkit sampleDocument 0
      [.elapse 1000, .insert { id := 9, classList := ["alert"] }, .remove 1, .elapse 3999]
      1 [.insert { id := 10, classList := ["alert"] }, .elapse 60000]
      (by decide) (by decide) (by decide) (by decide)).1,
    by decide,
    ((dismissed_decided_when_timer_fires workingToolkit sampleDocument 0
      [.elapse 1000, .insert { id := 9, classList := ["alert"] }, .remove 1, .elapse 3999]
      1 [.insert { id := 10, classList := ["alert"] }, .elapse 60000]
      (by decide) (by decide) (by decide) (by decide)).2.2.2 (by decide)
        { id := 9, classList := ["alert"] }).mpr ⟨by decide, by decide⟩,
    fun h =>
      absurd
        ((dismissed_decided_when_timer_fires workingToolkit sampleDocument 0
          [.elapse 1000, .insert { id := 9, classList := ["alert"] }, .remove 1, .elapse 3999]
          1 [.insert { id := 10, classList := ["alert"] }, .elapse 60000]
          (by decide) (by decide) (by decide) (by decide)).2.2.1
            { id := 10, classList := ["alert"] } h).1
        (by decide)⟩

/-- C10: when the toolkit throws on the k-th alert element (constructor or
`close`), the callback ends with that exception; the alert elements before it
have been closed and are gone from the document, the k-th and all later ones
are not closed and still displayed. -/
theorem timerCallback_stops_at_first_fault (tk : Toolkit) (w : World)
    (pre : List Element) (k : Element) (post : List Element)
    (hids : (w.document.map (fun e => e.id)).Nodup)
    (halerts : querySelectorAll w.document (.cls "alert") = pre ++ k :: post)
    (hpre : ∀ a ∈ pre, tk.constructorThrows a = false ∧ tk.closeThrows a = false)
    (hk : tk.constructorThrows k = true ∨ tk.closeThrows k = true) :
    (timerCallback tk w).fault
      = some (if tk.constructorThrows k then .alertConstructor k else .alertClose k) ∧
    (timerCallback tk w).world.closed = w.closed ++ pre ∧
    (∀ e ∈ pre, e ∉ (timerCallback tk w).world.document) ∧
    (∀ e ∈ k :: post, e ∉ pre ∧ e ∈ (timerCallback tk w).world.document) := by
  have hcb : timerCallback tk w = forEach (dismissAlert tk) (pre ++ k :: post) w := by
    simp [timerCallback, halerts]
  rw [hcb, forEach_throws tk pre k post w hpre hk]
  have hnd : (pre ++ k :: post).Nodup := halerts ▸ alerts_nodup w.document hids _
  have hdisj := (List.nodup_append.mp hnd).2.2
  have hmem : ∀ e ∈ pre ++ k :: post, e ∈ w.document := by
    intro e he
    rw [← halerts] at he
    exact ((mem_alerts _ _ _).mp he).1
  refine ⟨rfl, rfl, ?_, ?_⟩
  · intro e he hin
    simp only [List.mem_filter, List.all_eq_true] at hin
    have := hin.2 e he
    simp at this
  · intro e he
    have hne : e ∉ pre := fun h => hdisj h he
    refine ⟨hne, ?_⟩
    simp only [List.mem_filter, List.all_eq_true]
    refine ⟨hmem e (List.mem_append_right _ he), ?_⟩
    intro a ha
    have hae : a ≠ e := fun h => hne (h ▸ ha)
    have hid : a.id ≠ e.id := fun h =>
      hae (List.inj_on_of_nodup_map hids (hmem a (List.mem_append_left _ ha))
        (hmem e (List.mem_append_right _ he)) h)
    simpa [bne_iff_ne] using fun h => hid h.symm

/-- An instance of C10: `close` throws on the second of the three alerts of the
sample document. -/
theorem timerCallback_stops_at_first_fault_witness :
    (sampleDocument.map (fun e => e.id)).Nodup ∧
    querySelectorAll sampleDocument (.cls "alert")
      = [{ id := 1, classList := ["alert", "alert-success"] }]
          ++ { id := 3, classList := ["alert", "alert-danger", "fade"] }
            :: [{ id := 4, classList := ["alert"] }] ∧
    faultyToolkit.closeThrows { id := 3, classList := ["alert", "alert-danger", "fade"] }
      = true ∧
    (timerCallback faultyToolkit
        { document := sampleDocument, constructed := [], closed := [] }).fault
      = some (.alertClose { id := 3, classList := ["alert", "alert-danger", "fade"] }) ∧
    (timerCallback faultyToolkit
        { document := sampleDocument, constructed := [], closed := [] }).world.closed
      = [{ id := 1, classList := ["alert", "alert-success"] }] ∧
    (timerCallback faultyToolkit
        { document := sampleDocument, constructed := [], closed := [] }).world.document
      = [ { id := 2, classList := ["navbar"] },
          { id := 3, classList := ["alert", "alert-danger", "fade"] },
          { id := 4, classList := ["alert"] } ] :=
  ⟨by decide, by decide, by decide,
    (timerCallback_stops_at_first_fault faultyToolkit
      { document := sampleDocument, constructed := [], closed := [] }
      [{ id := 1, classList := ["alert", "alert-success"] }]
      { id := 3, classList := ["alert", "alert-danger", "fade"] }
      [{ id := 4, classList := ["alert"] }]
      (by decide) (by decide) (by decide) (by decide)).1,
    (timerCallback_stops_at_first_fault faultyToolkit
      { document := sampleDocument, constructed := [], closed := [] }
      [{ id := 1, classList := ["alert", "alert-success"] }]
      { id := 3, classList := ["alert", "alert-danger", "fade"] }
      [{ id := 4, classList := ["alert"] }]
      (by decide) (by decide) (by decide) (by decide)).2.1,
    by decide⟩

end CustomJs
